import Mathlib

/-!
Verification of the tool-event emission layer
(`codex-rs/core/src/tools/events.rs`).

The Rust code is embedded shallowly: every `send_event`, diff-tracker lock
operation and tracker call becomes an element of an `EmitAction` trace, and the
async methods `emit`, `begin`, `finish`, `emit_exec_command_begin`,
`emit_exec_end`, `emit_patch_end` become pure functions returning the trace
they would produce (plus, for `finish`, the value returned to the caller).
External collaborators that live outside this file's source (the command
parser, the two output formatters, and the `Debug` rendering of errors) are
passed in as an `Externals` record; the diff tracker is modelled by the
answer its `get_unified_diff` call returns when queried.
-/

/-- Modelled from the spec: `ExecCommandSource` is an enum tag distinguishing
caller-initiated vs model-initiated invocation; its definition is outside
`events.rs`. -/
inductive ExecCommandSource
  | caller
  | model
deriving DecidableEq

/-- Modelled from the spec: a file-change description (add/modify/delete with
content); `FileChange` is defined outside `events.rs` and is only carried
through opaquely here. -/
inductive FileChange
  | add (content : String)
  | delete
  | modify (unified_diff : String)
deriving DecidableEq

/-- Modelled from the spec: one structured, display-oriented command token;
`ParsedCommand` is defined outside `events.rs` and is only carried through
opaquely here. -/
structure ParsedCommand where
  token : String
deriving DecidableEq

/-- A text stream produced by the executor; the source reads `output.stdout.text`. -/
structure StreamOutput where
  text : String
deriving DecidableEq

/-- The executor's raw result: `ExecToolCallOutput` (input-only to this core).
Durations are modelled as natural numbers, `Duration.ZERO` as `0`. -/
structure ExecToolCallOutput where
  exit_code : Int
  stdout : StreamOutput
  stderr : StreamOutput
  aggregated_output : StreamOutput
  duration : Nat
deriving DecidableEq

/-- `ExecCommandBeginEvent` of the protocol layer. -/
structure ExecCommandBeginEvent where
  call_id : String
  turn_id : String
  command : List String
  cwd : String
  parsed_cmd : List ParsedCommand
  source : ExecCommandSource
  interaction_input : Option String
deriving DecidableEq

/-- `ExecCommandEndEvent` of the protocol layer. -/
structure ExecCommandEndEvent where
  call_id : String
  turn_id : String
  command : List String
  cwd : String
  parsed_cmd : List ParsedCommand
  source : ExecCommandSource
  interaction_input : Option String
  stdout : String
  stderr : String
  aggregated_output : String
  exit_code : Int
  duration : Nat
  formatted_output : String
deriving DecidableEq

/-- `PatchApplyBeginEvent` of the protocol layer; the `changes` map is
modelled as an association list. -/
structure PatchApplyBeginEvent where
  call_id : String
  auto_approved : Bool
  changes : List (String × FileChange)
deriving DecidableEq

/-- `PatchApplyEndEvent` of the protocol layer. -/
structure PatchApplyEndEvent where
  call_id : String
  stdout : String
  stderr : String
  success : Bool
deriving DecidableEq

/-- `TurnDiffEvent` of the protocol layer. -/
structure TurnDiffEvent where
  unified_diff : String
deriving DecidableEq

/-- The `EventMsg` variants sent by `events.rs`. -/
inductive EventMsg
  | execCommandBegin (e : ExecCommandBeginEvent)
  | execCommandEnd (e : ExecCommandEndEvent)
  | patchApplyBegin (e : PatchApplyBeginEvent)
  | patchApplyEnd (e : PatchApplyEndEvent)
  | turnDiff (e : TurnDiffEvent)
deriving DecidableEq

/-- One observable step of the emission layer: an event send through the
session, or a diff-tracker lock operation / call. -/
inductive EmitAction
  | lockAcquire
  | onPatchBegin (changes : List (String × FileChange))
  | getUnifiedDiff
  | lockRelease
  | sendEvent (e : EventMsg)
deriving DecidableEq

/-- `ToolEventCtx`: identifiers for the invocation plus the optional diff
tracker, the latter modelled by the `Result<Option<String>>` its
`get_unified_diff` returns when queried during this invocation. -/
structure ToolEventCtx where
  call_id : String
  turn_id : String
  turn_diff_tracker : Option (Except String (Option String))

/-- Modelled from the spec: sandbox errors; `Timeout` and `Denied` carry an
execution output, the remaining sandbox failure kinds are represented by
`signal`. `SandboxErr` is defined outside `events.rs`. -/
inductive SandboxErr
  | timeout (output : ExecToolCallOutput)
  | denied (output : ExecToolCallOutput)
  | signal (sig : Int)
deriving DecidableEq

/-- Modelled from the spec: execution-layer errors; `sandbox` wraps a sandbox
error, `internal` stands for every other `CodexErr` variant (all of which hit
the same catch-all arm of `finish`). `CodexErr` is defined outside
`events.rs`. -/
inductive CodexErr
  | sandbox (e : SandboxErr)
  | internal (msg : String)
deriving DecidableEq

/-- `ToolError`: either an execution-layer error or a pre-execution
rejection carrying a message. -/
inductive ToolError
  | codex (e : CodexErr)
  | rejected (msg : String)
deriving DecidableEq

/-- `FunctionCallError::RespondToModel`: the error value surfaced back into
the conversation. -/
inductive FunctionCallError
  | respondToModel (msg : String)
deriving DecidableEq

/-- Modelled from the spec: the external collaborators of `events.rs` —
the pure command parser, the two output formatters from the parent module,
and the `Debug` rendering used to build diagnostic messages. -/
structure Externals where
  parse_command : List String → List ParsedCommand
  format_exec_output_str : ExecToolCallOutput → String
  format_exec_output_for_model : ExecToolCallOutput → String
  debug_fmt : CodexErr → String

/-- `ToolEventStage`: the lifecycle stage handed to the dispatcher. -/
inductive ToolEventFailure
  | output (o : ExecToolCallOutput)
  | message (m : String)

/-- Lifecycle stage: `Begin`, `Success(output)`, or `Failure(..)`. -/
inductive ToolEventStage
  | begin
  | success (output : ExecToolCallOutput)
  | failure (f : ToolEventFailure)

/-- `ToolEmitter`: the closed three-variant description of one in-flight
tool invocation. -/
inductive ToolEmitter
  | Shell (command : List String) (cwd : String) (source : ExecCommandSource)
      (parsed_cmd : List ParsedCommand)
  | ApplyPatch (changes : List (String × FileChange)) (auto_approved : Bool)
  | UnifiedExec (command : List String) (cwd : String) (source : ExecCommandSource)
      (interaction_input : Option String) (parsed_cmd : List ParsedCommand)

/-- Factory `ToolEmitter::shell`: parses the command once at construction. -/
def ToolEmitter.shell (E : Externals) (command : List String) (cwd : String)
    (source : ExecCommandSource) : ToolEmitter :=
  .Shell command cwd source (E.parse_command command)

/-- Factory `ToolEmitter::apply_patch`. -/
def ToolEmitter.apply_patch (changes : List (String × FileChange))
    (auto_approved : Bool) : ToolEmitter :=
  .ApplyPatch changes auto_approved

/-- Factory `ToolEmitter::unified_exec`: parses the command once at construction. -/
def ToolEmitter.unified_exec (E : Externals) (command : List String) (cwd : String)
    (source : ExecCommandSource) (interaction_input : Option String) : ToolEmitter :=
  .UnifiedExec command cwd source interaction_input (E.parse_command command)

/-- `emit_exec_command_begin`: sends one `ExecCommandBegin` event. -/
def emit_exec_command_begin (ctx : ToolEventCtx) (command : List String) (cwd : String)
    (parsed_cmd : List ParsedCommand) (source : ExecCommandSource)
    (interaction_input : Option String) : List EmitAction :=
  [EmitAction.sendEvent (.execCommandBegin
    { call_id := ctx.call_id, turn_id := ctx.turn_id, command, cwd, parsed_cmd,
      source, interaction_input })]

/-- `ExecEventMetadata`: the identifying fields shared by begin and end
events of command-based tools. -/
structure ExecEventMetadata where
  command : List String
  cwd : String
  parsed_cmd : List ParsedCommand
  source : ExecCommandSource
  interaction_input : Option String

/-- `ExecCommandResultPayload`: the derived end-of-tool payload. -/
structure ExecCommandResultPayload where
  stdout : String
  stderr : String
  aggregated_output : String
  exit_code : Int
  duration : Nat
  formatted_output : String

/-- `payload_from_output`: copies the executor's fields and attaches the
formatted rendering. -/
def payload_from_output (E : Externals) (output : ExecToolCallOutput) :
    ExecCommandResultPayload :=
  { stdout := output.stdout.text
    stderr := output.stderr.text
    aggregated_output := output.aggregated_output.text
    exit_code := output.exit_code
    duration := output.duration
    formatted_output := E.format_exec_output_str output }

/-- `emit_exec_end`: sends one `ExecCommandEnd` event from metadata and payload. -/
def emit_exec_end (ctx : ToolEventCtx) (meta : ExecEventMetadata)
    (payload : ExecCommandResultPayload) : List EmitAction :=
  [EmitAction.sendEvent (.execCommandEnd
    { call_id := ctx.call_id, turn_id := ctx.turn_id, command := meta.command,
      cwd := meta.cwd, parsed_cmd := meta.parsed_cmd, source := meta.source,
      interaction_input := meta.interaction_input, stdout := payload.stdout,
      stderr := payload.stderr, aggregated_output := payload.aggregated_output,
      exit_code := payload.exit_code, duration := payload.duration,
      formatted_output := payload.formatted_output })]

/-- `emit_patch_end`: sends the `PatchApplyEnd` event, then, if a diff
tracker is attached, queries it under its lock and sends a `TurnDiff` event
when the query returns `Ok(Some(diff))`; a `None` or an error is swallowed. -/
def emit_patch_end (ctx : ToolEventCtx) (stdout stderr : String) (success : Bool) :
    List EmitAction :=
  [EmitAction.sendEvent (.patchApplyEnd { call_id := ctx.call_id, stdout, stderr, success })] ++
  match ctx.turn_diff_tracker with
  | none => []
  | some r =>
    [EmitAction.lockAcquire, EmitAction.getUnifiedDiff, EmitAction.lockRelease] ++
    match r with
    | .ok (some unified_diff) => [EmitAction.sendEvent (.turnDiff { unified_diff })]
    | _ => []

/-- `ToolEmitter::emit`: the exhaustive dispatcher over variant × stage. -/
def ToolEmitter.emit (self : ToolEmitter) (E : Externals) (ctx : ToolEventCtx)
    (stage : ToolEventStage) : List EmitAction :=
  match self, stage with
  | .Shell command cwd source parsed_cmd, .begin =>
    emit_exec_command_begin ctx command cwd parsed_cmd source none
  | .Shell command cwd source parsed_cmd, .success output =>
    emit_exec_end ctx
      { command, cwd, parsed_cmd, source, interaction_input := none }
      (payload_from_output E output)
  | .Shell command cwd source parsed_cmd, .failure (.output output) =>
    emit_exec_end ctx
      { command, cwd, parsed_cmd, source, interaction_input := none }
      (payload_from_output E output)
  | .Shell command cwd source parsed_cmd, .failure (.message message) =>
    emit_exec_end ctx
      { command, cwd, parsed_cmd, source, interaction_input := none }
      { stdout := "", stderr := message, aggregated_output := message,
        exit_code := -1, duration := 0, formatted_output := message }
  | .ApplyPatch changes auto_approved, .begin =>
    (match ctx.turn_diff_tracker with
     | some _ => [EmitAction.lockAcquire, EmitAction.onPatchBegin changes, EmitAction.lockRelease]
     | none => []) ++
    [EmitAction.sendEvent (.patchApplyBegin
      { call_id := ctx.call_id, auto_approved, changes })]
  | .ApplyPatch _ _, .success output =>
    emit_patch_end ctx output.stdout.text output.stderr.text (output.exit_code == 0)
  | .ApplyPatch _ _, .failure (.output output) =>
    emit_patch_end ctx output.stdout.text output.stderr.text (output.exit_code == 0)
  | .ApplyPatch _ _, .failure (.message message) =>
    emit_patch_end ctx "" message false
  | .UnifiedExec command cwd source interaction_input parsed_cmd, .begin =>
    emit_exec_command_begin ctx command cwd parsed_cmd source interaction_input
  | .UnifiedExec command cwd source interaction_input parsed_cmd, .success output =>
    emit_exec_end ctx
      { command, cwd, parsed_cmd, source, interaction_input }
      (payload_from_output E output)
  | .UnifiedExec command cwd source interaction_input parsed_cmd, .failure (.output output) =>
    emit_exec_end ctx
      { command, cwd, parsed_cmd, source, interaction_input }
      (payload_from_output E output)
  | .UnifiedExec command cwd source interaction_input parsed_cmd, .failure (.message message) =>
    emit_exec_end ctx
      { command, cwd, parsed_cmd, source, interaction_input }
      { stdout := "", stderr := message, aggregated_output := message,
        exit_code := -1, duration := 0, formatted_output := message }

/-- `ToolEmitter::begin`: emits the `Begin` stage. -/
def ToolEmitter.begin (self : ToolEmitter) (E : Externals) (ctx : ToolEventCtx) :
    List EmitAction :=
  self.emit E ctx .begin

/-- `ToolEmitter::finish`: classifies the raw result into a lifecycle stage
and the model-facing return value, emits the stage, and returns the value.
The returned trace is the trace of that emission. -/
def ToolEmitter.finish (self : ToolEmitter) (E : Externals) (ctx : ToolEventCtx)
    (out : Except ToolError ExecToolCallOutput) :
    List EmitAction × Except FunctionCallError String :=
  let p : ToolEventStage × Except FunctionCallError String :=
    match out with
    | .ok output =>
      let content := E.format_exec_output_for_model output
      let exit_code := output.exit_code
      let event := ToolEventStage.success output
      let result := if exit_code == 0 then Except.ok content
        else Except.error (FunctionCallError.respondToModel content)
      (event, result)
    | .error (.codex (.sandbox (.timeout output)))
    | .error (.codex (.sandbox (.denied output))) =>
      let response := E.format_exec_output_for_model output
      (ToolEventStage.failure (.output output),
       Except.error (FunctionCallError.respondToModel response))
    | .error (.codex err) =>
      let message := "execution error: " ++ E.debug_fmt err
      (ToolEventStage.failure (.message message),
       Except.error (FunctionCallError.respondToModel message))
    | .error (.rejected msg) =>
      let normalized := if msg == "rejected by user"
        then "exec command rejected by user" else msg
      (ToolEventStage.failure (.message normalized),
       Except.error (FunctionCallError.respondToModel normalized))
  (self.emit E ctx p.1, p.2)

/-- The events sent by a trace, in order. -/
def eventsOf (tr : List EmitAction) : List EventMsg :=
  tr.filterMap (fun a => match a with | .sendEvent e => some e | _ => none)

/-- Whether an event is a begin-of-tool event. -/
def EventMsg.isBegin : EventMsg → Bool
  | .execCommandBegin _ => true
  | .patchApplyBegin _ => true
  | _ => false

/-- Whether an event is an end-of-tool event. -/
def EventMsg.isEnd : EventMsg → Bool
  | .execCommandEnd _ => true
  | .patchApplyEnd _ => true
  | _ => false

/-- Whether an event is the secondary turn-diff event. -/
def EventMsg.isTurnDiff : EventMsg → Bool
  | .turnDiff _ => true
  | _ => false

/-- The call identifier an event carries, when it carries one. -/
def EventMsg.callId : EventMsg → Option String
  | .execCommandBegin e => some e.call_id
  | .execCommandEnd e => some e.call_id
  | .patchApplyBegin e => some e.call_id
  | .patchApplyEnd e => some e.call_id
  | .turnDiff _ => none

/-- The command/cwd/source metadata an event carries (`none` for the patch
and diff events, which carry no such fields). -/
def EventMsg.cmdMeta : EventMsg → Option (List String × String × ExecCommandSource)
  | .execCommandBegin e => some (e.command, e.cwd, e.source)
  | .execCommandEnd e => some (e.command, e.cwd, e.source)
  | _ => none

/-- Number of begin-of-tool events in a list. -/
def countBegins (evs : List EventMsg) : Nat := evs.countP (fun e => e.isBegin)

/-- Number of end-of-tool events in a list. -/
def countEnds (evs : List EventMsg) : Nat := evs.countP (fun e => e.isEnd)

/-- The shape (outermost constructor) of an event. -/
inductive EventShape
  | commandBegin
  | commandEnd
  | patchBegin
  | patchEnd
  | diffShape
deriving DecidableEq

/-- The shape of a concrete event. -/
def EventMsg.shape : EventMsg → EventShape
  | .execCommandBegin _ => .commandBegin
  | .execCommandEnd _ => .commandEnd
  | .patchApplyBegin _ => .patchBegin
  | .patchApplyEnd _ => .patchEnd
  | .turnDiff _ => .diffShape

/-- The primary (non-turn-diff) events of a trace. -/
def primaryEvents (tr : List EmitAction) : List EventMsg :=
  (eventsOf tr).filter (fun e => !e.isTurnDiff)

/-- Modelled from the spec: the event shape the spec expects the dispatcher
to produce for each variant × stage combination (command-begin/command-end
for the command-based variants, patch-begin/patch-end for `ApplyPatch`). -/
def specExpectedShape : ToolEmitter → ToolEventStage → EventShape
  | .ApplyPatch _ _, .begin => .patchBegin
  | .ApplyPatch _ _, _ => .patchEnd
  | _, .begin => .commandBegin
  | _, _ => .commandEnd

/-- C2: `emit` is a total function over the 3 variants × the 3 stage shapes:
every combination produces exactly one primary outbound event, of the
expected shape, and no combination is dropped. -/
theorem emit_total_one_primary_event (E : Externals) (em : ToolEmitter)
    (ctx : ToolEventCtx) (stage : ToolEventStage) :
    ∃ e : EventMsg, primaryEvents (em.emit E ctx stage) = [e] ∧
      e.shape = specExpectedShape em stage := by
  obtain ⟨cid, tid, tdt⟩ := ctx
  rcases tdt with _ | (dmsg | (_ | d)) <;>
  rcases em with ⟨cmd, cwd, src, pc⟩ | ⟨chs, aa⟩ | ⟨cmd, cwd, src, ii, pc⟩ <;>
  rcases stage with _ | out | (out | m) <;>
  simp [ToolEmitter.emit, emit_exec_command_begin, emit_exec_end, emit_patch_end,
    primaryEvents, eventsOf, EventMsg.isTurnDiff, EventMsg.shape, specExpectedShape]

/-- C3: `finish` on a successful execution output emits the `Success` stage
carrying the raw output (so the event is the same whatever the exit code),
returns the model-facing rendering plainly when the exit code is zero, and
returns the very same rendering wrapped as an error otherwise. -/
theorem finish_success_classification (E : Externals) (em : ToolEmitter)
    (ctx : ToolEventCtx) (output : ExecToolCallOutput) :
    em.finish E ctx (.ok output) =
      (em.emit E ctx (.success output),
       if output.exit_code == 0 then
         Except.ok (E.format_exec_output_for_model output)
       else
         Except.error (FunctionCallError.respondToModel
           (E.format_exec_output_for_model output))) := by
  simp only [ToolEmitter.finish]

/-- C6: `finish` on a pre-execution rejection rewrites the exact text
"rejected by user" to "exec command rejected by user", passes every other
text through unchanged, and uses the resulting text identically in the
returned error and in the emitted `Failure(Message)` stage. -/
theorem finish_rejection_normalization (E : Externals) (em : ToolEmitter)
    (ctx : ToolEventCtx) (msg : String) :
    em.finish E ctx (.error (.rejected msg)) =
      (em.emit E ctx (.failure (.message
         (if msg == "rejected by user" then "exec command rejected by user" else msg))),
       Except.error (FunctionCallError.respondToModel
         (if msg == "rejected by user" then "exec command rejected by user" else msg))) := by
  simp only [ToolEmitter.finish]

/-- An event preserves the given execution output verbatim: a command-end
event must copy its stream texts, exit code and duration, and a patch-end
event must copy stdout/stderr and derive `success` from the exit code;
other events are unconstrained. -/
def preservesOutput (e : EventMsg) (output : ExecToolCallOutput) : Prop :=
  match e with
  | .execCommandEnd ev =>
      ev.stdout = output.stdout.text ∧ ev.stderr = output.stderr.text ∧
      ev.aggregated_output = output.aggregated_output.text ∧
      ev.exit_code = output.exit_code ∧ ev.duration = output.duration
  | .patchApplyEnd ev =>
      ev.stdout = output.stdout.text ∧ ev.stderr = output.stderr.text ∧
      ev.success = (output.exit_code == 0)
  | _ => True

/-- A command-end event carries the synthetic message-only payload: empty
stdout, the message as stderr/aggregated/formatted content, exit code −1 and
zero duration; other events are unconstrained. -/
def messageOnlyPayload (e : EventMsg) (msg : String) : Prop :=
  match e with
  | .execCommandEnd ev =>
      ev.stdout = "" ∧ ev.stderr = msg ∧ ev.aggregated_output = msg ∧
      ev.exit_code = -1 ∧ ev.duration = 0 ∧ ev.formatted_output = msg
  | _ => True

/-- Whether an execution-layer error is a sandbox timeout or denial, i.e.
still carries an execution output. -/
def CodexErr.isSandboxWithOutput : CodexErr → Bool
  | .sandbox (.timeout _) => true
  | .sandbox (.denied _) => true
  | _ => false

/-- A concrete instantiation of the external collaborators, used to evaluate
the development on concrete inputs. -/
def sampleExternals : Externals :=
  { parse_command := fun cmd => cmd.map ParsedCommand.mk
    format_exec_output_str := fun o => o.aggregated_output.text
    format_exec_output_for_model := fun o => o.aggregated_output.text
    debug_fmt := fun _ => "Signal(9)" }

/-- A concrete execution output used to evaluate the development. -/
def sampleOutput : ExecToolCallOutput :=
  { exit_code := 0, stdout := ⟨"out"⟩, stderr := ⟨"err"⟩,
    aggregated_output := ⟨"agg"⟩, duration := 5 }

/-- C4: `finish` on a sandbox timeout or denial (a policy block that still
carries an execution output) emits `Failure(Output)` with the original
output fields preserved verbatim and returns the formatted output wrapped
as an error. -/
theorem finish_sandbox_blocked_preserves_output (E : Externals) (em : ToolEmitter)
    (ctx : ToolEventCtx) (output : ExecToolCallOutput) (err : ToolError)
    (h : err = .codex (.sandbox (.timeout output)) ∨
         err = .codex (.sandbox (.denied output))) :
    em.finish E ctx (.error err) =
      (em.emit E ctx (.failure (.output output)),
       Except.error (FunctionCallError.respondToModel
         (E.format_exec_output_for_model output))) ∧
    ∀ e ∈ eventsOf (em.finish E ctx (.error err)).1, preservesOutput e output := by
  have main : em.finish E ctx (.error err) =
      (em.emit E ctx (.failure (.output output)),
       Except.error (FunctionCallError.respondToModel
         (E.format_exec_output_for_model output))) := by
    rcases h with h | h <;> subst h <;> simp only [ToolEmitter.finish]
  refine ⟨main, ?_⟩
  rw [main]
  obtain ⟨cid, tid, tdt⟩ := ctx
  rcases tdt with _ | (dmsg | (_ | d)) <;>
  rcases em with ⟨cmd, cwd, src, pc⟩ | ⟨chs, aa⟩ | ⟨cmd, cwd, src, ii, pc⟩ <;>
  simp [ToolEmitter.emit, emit_exec_end, emit_patch_end, payload_from_output,
    eventsOf, preservesOutput]

/-- C4 witness: the theorem evaluated at a concrete shell invocation hit by
a sandbox timeout. -/
theorem finish_sandbox_blocked_preserves_output_witness :
    (ToolEmitter.Shell ["ls"] "/tmp" .model []).finish sampleExternals
        ⟨"c1", "t1", none⟩ (.error (.codex (.sandbox (.timeout sampleOutput)))) =
      ((ToolEmitter.Shell ["ls"] "/tmp" .model []).emit sampleExternals
        ⟨"c1", "t1", none⟩ (.failure (.output sampleOutput)),
       Except.error (FunctionCallError.respondToModel
         (sampleExternals.format_exec_output_for_model sampleOutput))) :=
  (finish_sandbox_blocked_preserves_output sampleExternals
    (.Shell ["ls"] "/tmp" .model []) ⟨"c1", "t1", none⟩ sampleOutput
    (.codex (.sandbox (.timeout sampleOutput))) (Or.inl rfl)).1

/-- C5: `finish` on an execution-layer error other than sandbox
timeout/denial (and other than a rejection) emits `Failure(Message)` with a
diagnostic message, every command-end event in the trace carries exit code
−1, zero duration and that message as stderr/aggregated/formatted content,
and the same message is returned wrapped as an error. -/
theorem finish_internal_error_message_payload (E : Externals) (em : ToolEmitter)
    (ctx : ToolEventCtx) (err : CodexErr)
    (h : err.isSandboxWithOutput = false) :
    em.finish E ctx (.error (.codex err)) =
      (em.emit E ctx (.failure (.message ("execution error: " ++ E.debug_fmt err))),
       Except.error (FunctionCallError.respondToModel
         ("execution error: " ++ E.debug_fmt err))) ∧
    ∀ e ∈ eventsOf (em.finish E ctx (.error (.codex err))).1,
      messageOnlyPayload e ("execution error: " ++ E.debug_fmt err) := by
  have main : em.finish E ctx (.error (.codex err)) =
      (em.emit E ctx (.failure (.message ("execution error: " ++ E.debug_fmt err))),
       Except.error (FunctionCallError.respondToModel
         ("execution error: " ++ E.debug_fmt err))) := by
    rcases err with (o | o | s) | im
    · simp [CodexErr.isSandboxWithOutput] at h
    · simp [CodexErr.isSandboxWithOutput] at h
    · simp only [ToolEmitter.finish]
    · simp only [ToolEmitter.finish]
  refine ⟨main, ?_⟩
  rw [main]
  obtain ⟨cid, tid, tdt⟩ := ctx
  rcases tdt with _ | (dmsg | (_ | d)) <;>
  rcases em with ⟨cmd, cwd, src, pc⟩ | ⟨chs, aa⟩ | ⟨cmd, cwd, src, ii, pc⟩ <;>
  simp [ToolEmitter.emit, emit_exec_end, emit_patch_end, eventsOf, messageOnlyPayload]

/-- C5 witness: the theorem evaluated at a concrete shell invocation hit by
an internal execution error. -/
theorem finish_internal_error_message_payload_witness :
    (ToolEmitter.Shell ["ls"] "/tmp" .model []).finish sampleExternals
        ⟨"c1", "t1", none⟩ (.error (.codex (.internal "boom"))) =
      ((ToolEmitter.Shell ["ls"] "/tmp" .model []).emit sampleExternals
        ⟨"c1", "t1", none⟩ (.failure (.message
          ("execution error: " ++ sampleExternals.debug_fmt (.internal "boom")))),
       Except.error (FunctionCallError.respondToModel
         ("execution error: " ++ sampleExternals.debug_fmt (.internal "boom")))) :=
  (finish_internal_error_message_payload sampleExternals
    (.Shell ["ls"] "/tmp" .model []) ⟨"c1", "t1", none⟩ (.internal "boom") rfl).1

/-- C7: the `ApplyPatch` variant emits, on `Success` or `Failure(Output)`, a
patch-end event carrying the output's stdout/stderr texts and a success
flag equal to (exit code = 0); on `Failure(Message)` a patch-end event with
empty stdout, the message as stderr, and success = false. -/
theorem apply_patch_end_event_fields (E : Externals)
    (changes : List (String × FileChange)) (auto_approved : Bool)
    (ctx : ToolEventCtx) (output : ExecToolCallOutput) (m : String) :
    (eventsOf ((ToolEmitter.ApplyPatch changes auto_approved).emit E ctx
        (.success output))).head? =
      some (.patchApplyEnd
        ⟨ctx.call_id, output.stdout.text, output.stderr.text, output.exit_code == 0⟩) ∧
    (eventsOf ((ToolEmitter.ApplyPatch changes auto_approved).emit E ctx
        (.failure (.output output)))).head? =
      some (.patchApplyEnd
        ⟨ctx.call_id, output.stdout.text, output.stderr.text, output.exit_code == 0⟩) ∧
    (eventsOf ((ToolEmitter.ApplyPatch changes auto_approved).emit E ctx
        (.failure (.message m)))).head? =
      some (.patchApplyEnd ⟨ctx.call_id, "", m, false⟩) := by
  obtain ⟨cid, tid, tdt⟩ := ctx
  rcases tdt with _ | (dmsg | (_ | d)) <;>
  simp [ToolEmitter.emit, emit_patch_end, eventsOf]

/-- C8: after the patch-end event is sent, an attached diff tracker is
queried under its lock; a reported diff yields exactly one turn-diff event
carrying that text, while "no diff" or an error yields no turn-diff event
and leaves the already-sent patch-end event unaffected. -/
theorem patch_end_diff_query_behavior (ctx : ToolEventCtx)
    (stdout stderr : String) (success : Bool)
    (r : Except String (Option String))
    (h : ctx.turn_diff_tracker = some r) :
    (eventsOf (emit_patch_end ctx stdout stderr success)).head? =
      some (.patchApplyEnd ⟨ctx.call_id, stdout, stderr, success⟩) ∧
    (∃ l t, emit_patch_end ctx stdout stderr success =
      l ++ [EmitAction.lockAcquire, EmitAction.getUnifiedDiff,
        EmitAction.lockRelease] ++ t) ∧
    (∀ d, r = .ok (some d) →
      eventsOf (emit_patch_end ctx stdout stderr success) =
        [.patchApplyEnd ⟨ctx.call_id, stdout, stderr, success⟩, .turnDiff ⟨d⟩]) ∧
    ((r = .ok none ∨ ∃ msg, r = .error msg) →
      eventsOf (emit_patch_end ctx stdout stderr success) =
        [.patchApplyEnd ⟨ctx.call_id, stdout, stderr, success⟩]) := by
  obtain ⟨cid, tid, tdt⟩ := ctx
  simp only at h
  subst h
  rcases r with dmsg | (_ | d)
  · exact ⟨by simp [emit_patch_end, eventsOf],
      ⟨[EmitAction.sendEvent (.patchApplyEnd ⟨cid, stdout, stderr, success⟩)], [],
        by simp [emit_patch_end]⟩,
      by simp, by simp [emit_patch_end, eventsOf]⟩
  · exact ⟨by simp [emit_patch_end, eventsOf],
      ⟨[EmitAction.sendEvent (.patchApplyEnd ⟨cid, stdout, stderr, success⟩)], [],
        by simp [emit_patch_end]⟩,
      by simp, by simp [emit_patch_end, eventsOf]⟩
  · exact ⟨by simp [emit_patch_end, eventsOf],
      ⟨[EmitAction.sendEvent (.patchApplyEnd ⟨cid, stdout, stderr, success⟩)],
        [EmitAction.sendEvent (.turnDiff ⟨d⟩)], by simp [emit_patch_end]⟩,
      by simp [emit_patch_end, eventsOf], by simp⟩

/-- C8 witness: the theorem evaluated at a concrete context whose tracker
reports the diff "dd". -/
theorem patch_end_diff_query_behavior_witness :
    (eventsOf (emit_patch_end ⟨"c2", "t2", some (.ok (some "dd"))⟩ "po" "pe" true)).head? =
      some (.patchApplyEnd ⟨"c2", "po", "pe", true⟩) :=
  (patch_end_diff_query_behavior ⟨"c2", "t2", some (.ok (some "dd"))⟩ "po" "pe" true
    (.ok (some "dd")) rfl).1

/-- Whether a trace never sends an event while the diff-tracker lock is
held, given whether the lock is held at the start. -/
def noSendWhileLocked : List EmitAction → Bool → Bool
  | [], _ => true
  | .lockAcquire :: rest, _ => noSendWhileLocked rest true
  | .lockRelease :: rest, _ => noSendWhileLocked rest false
  | .sendEvent _ :: rest, held => !held && noSendWhileLocked rest held
  | _ :: rest, held => noSendWhileLocked rest held

/-- C9: for `ApplyPatch` at `Begin` with a diff tracker attached, the
tracker's `on_patch_begin` runs between lock acquisition and release, the
lock is released strictly before the patch-begin event is sent, and no
event is ever sent while the lock is held. -/
theorem apply_patch_begin_lock_discipline (E : Externals)
    (changes : List (String × FileChange)) (auto_approved : Bool)
    (ctx : ToolEventCtx) (r : Except String (Option String))
    (h : ctx.turn_diff_tracker = some r) :
    (ToolEmitter.ApplyPatch changes auto_approved).emit E ctx .begin =
      [EmitAction.lockAcquire, EmitAction.onPatchBegin changes, EmitAction.lockRelease,
       EmitAction.sendEvent (.patchApplyBegin ⟨ctx.call_id, auto_approved, changes⟩)] ∧
    noSendWhileLocked
      ((ToolEmitter.ApplyPatch changes auto_approved).emit E ctx .begin) false = true := by
  obtain ⟨cid, tid, tdt⟩ := ctx
  simp only at h
  subst h
  simp [ToolEmitter.emit, noSendWhileLocked]

/-- C9 witness: the theorem evaluated at a concrete patch invocation with an
attached tracker. -/
theorem apply_patch_begin_lock_discipline_witness :
    (ToolEmitter.ApplyPatch [("a.txt", .add "hi")] true).emit sampleExternals
        ⟨"c3", "t3", some (.ok none)⟩ .begin =
      [EmitAction.lockAcquire, EmitAction.onPatchBegin [("a.txt", .add "hi")],
       EmitAction.lockRelease,
       EmitAction.sendEvent (.patchApplyBegin ⟨"c3", true, [("a.txt", .add "hi")]⟩)] :=
  (apply_patch_begin_lock_discipline sampleExternals [("a.txt", .add "hi")] true
    ⟨"c3", "t3", some (.ok none)⟩ (.ok none) rfl).1

/-- C10: for the Shell and UnifiedExec variants at stage `Failure(Message)`,
the emitted command-end event has empty stdout, and only stderr,
aggregated_output and formatted_output carry the message. -/
theorem failure_message_stdout_empty (E : Externals) (command : List String)
    (cwd : String) (source : ExecCommandSource) (parsed_cmd : List ParsedCommand)
    (interaction_input : Option String) (ctx : ToolEventCtx) (m : String) :
    (ToolEmitter.Shell command cwd source parsed_cmd).emit E ctx
        (.failure (.message m)) =
      [EmitAction.sendEvent (.execCommandEnd
        { call_id := ctx.call_id, turn_id := ctx.turn_id, command, cwd, parsed_cmd,
          source, interaction_input := none, stdout := "", stderr := m,
          aggregated_output := m, exit_code := -1, duration := 0,
          formatted_output := m })] ∧
    (ToolEmitter.UnifiedExec command cwd source interaction_input parsed_cmd).emit
        E ctx (.failure (.message m)) =
      [EmitAction.sendEvent (.execCommandEnd
        { call_id := ctx.call_id, turn_id := ctx.turn_id, command, cwd, parsed_cmd,
          source, interaction_input, stdout := "", stderr := m,
          aggregated_output := m, exit_code := -1, duration := 0,
          formatted_output := m })] := by
  constructor <;> simp [ToolEmitter.emit, emit_exec_end]

set_option maxHeartbeats 2000000 in
/-- C1: one `begin` call followed by one `finish` call on the same emitter
yields exactly one begin event and exactly one end event; the two events
carry the same call identifier and identical command/cwd/source metadata,
and `finish` produces the end event together with the returned text from
the same classified outcome. -/
theorem begin_finish_exactly_one_pair (E : Externals) (em : ToolEmitter)
    (ctx : ToolEventCtx) (out : Except ToolError ExecToolCallOutput) :
    countBegins (eventsOf (em.begin E ctx)) = 1 ∧
    countEnds (eventsOf (em.begin E ctx)) = 0 ∧
    countEnds (eventsOf (em.finish E ctx out).1) = 1 ∧
    countBegins (eventsOf (em.finish E ctx out).1) = 0 ∧
    ∀ b ∈ eventsOf (em.begin E ctx), ∀ e ∈ eventsOf (em.finish E ctx out).1,
      b.isBegin = true → e.isEnd = true →
        b.callId = some ctx.call_id ∧ e.callId = some ctx.call_id ∧
        b.cmdMeta = e.cmdMeta := by
  obtain ⟨cid, tid, tdt⟩ := ctx
  rcases tdt with _ | (dmsg | (_ | d)) <;>
  rcases em with ⟨cmd, cwd, src, pc⟩ | ⟨chs, aa⟩ | ⟨cmd, cwd, src, ii, pc⟩ <;>
  rcases out with (((o | o | s) | im) | rm) | o <;>
  simp [ToolEmitter.begin, ToolEmitter.finish, ToolEmitter.emit,
    emit_exec_command_begin, emit_exec_end, emit_patch_end, payload_from_output,
    eventsOf, countBegins, countEnds, EventMsg.isBegin, EventMsg.isEnd,
    EventMsg.callId, EventMsg.cmdMeta]

/-- C1 witness: the theorem evaluated at a concrete shell invocation that
succeeded with exit code 0. -/
theorem begin_finish_exactly_one_pair_witness :
    countBegins (eventsOf ((ToolEmitter.Shell ["ls"] "/tmp" .model []).begin
      sampleExternals ⟨"c4", "t4", none⟩)) = 1 :=
  (begin_finish_exactly_one_pair sampleExternals (.Shell ["ls"] "/tmp" .model [])
    ⟨"c4", "t4", none⟩ (.ok sampleOutput)).1
